import Mathlib

/-!
Shallow embedding of the extraction and analytics engine of `scraper_app.py`
(the `scrape_website` function, its `st.cache_data` memoization boundary, and
the Pearson correlation used by the analytics tab), together with theorems
settling the claims of the specification about it.

External collaborators are modelled as data:
* the transport (`requests.get` + `raise_for_status`) is a `FetchResult`
  value: either a parsed document or a request exception;
* the parser (`BeautifulSoup`) is folded into the document model: a
  `Document` carries the ordered sequences of repeating content blocks that
  the two `find_all` calls would locate, and each block carries the
  sub-element texts and attributes that the extraction code reads, with
  `Option` marking an absent element (attribute access on a missing element
  raises, which the per-item handler turns into a skip).
-/

namespace Scraper

/-- One `article.product_pod` block of the books layout, as the fields the
extractor reads from it.
* `h3aTitle`: `none` models a missing `h3` or `a` element (the chained
  `.find` returns `None` and the next access raises `AttributeError`);
  `some none` models `a` present but without a `title` attribute, where
  the `get` call with default "N/A" substitutes the default; `some (some t)` is the
  attribute value.
* `priceText`: text of `p.price_color`, `none` when the element is missing.
* `starRating`: the `class` attribute list of `p.star-rating`, `none` when
  the element is missing (then the `get` call for the class raises on `None`).
* `availabilityText`: text of `p.instock.availability`, `none` when missing
  (the code guards this one with `if availability else False`). -/
structure BookBlock where
  h3aTitle : Option (Option String)
  priceText : Option String
  starRating : Option (List String)
  availabilityText : Option String

/-- One `div.quote` block of the quotes layout: the text of `span.text` and
of `small.author`, `none` when the element is missing (access then raises
and the item is skipped). -/
structure QuoteBlock where
  quoteText : Option String
  author : Option String

/-- The parsed document: the ordered block sequences that
the two `soup.find_all` calls (selecting `article.product_pod` and
`div.quote` respectively) return, in document order. -/
structure DocumentData where
  bookBlocks : List BookBlock
  quoteBlocks : List QuoteBlock

/-- Result of the single `requests.get(url, ...)` call followed by
`response.raise_for_status()`: either the parsed document, or a
`requests.RequestException` (timeout, connection error, non-2xx status)
carrying its message. -/
inductive FetchResult where
  | ok : DocumentData → FetchResult
  | requestError : String → FetchResult

/-- One row of the resulting DataFrame: the dict appended to `products`.
Ratings are rationals because the quotes branch stores the float `5.0`. -/
structure ProductRecord where
  title : String
  price : ℚ
  rating : ℚ
  in_stock : Bool
  category : String
deriving DecidableEq

/-- Tests whether `needle` is an initial segment of the second list. -/
def leadsWith : List Char → List Char → Bool
  | [], _ => true
  | _ :: _, [] => false
  | a :: as, b :: bs => a == b && leadsWith as bs

/-- Substring containment, Python `needle in hay`, on character lists. -/
def occursIn (needle : List Char) : List Char → Bool
  | [] => needle.isEmpty
  | c :: rest => leadsWith needle (c :: rest) || occursIn needle rest

/-- Substring containment for strings, Python `needle in hay`, as used by the
URL routing checks and by the availability test for "In stock". -/
def containsSubstr (hay needle : String) : Bool :=
  occursIn needle.toList hay.toList

/-- The Python method `str.strip`: remove leading and trailing whitespace. -/
def pyStrip (l : List Char) : List Char :=
  ((l.dropWhile Char.isWhitespace).reverse.dropWhile Char.isWhitespace).reverse

/-- The two chained `replace` calls on the price text: with single-character
patterns they delete every occurrence of the two currency symbols. -/
def stripCurrency (l : List Char) : List Char :=
  l.filter (fun c => c ≠ '£' && c ≠ '$')

def allDigits (l : List Char) : Bool := l.all Char.isDigit

/-- Numeric value of a digit string, most significant first. -/
def digitsVal (l : List Char) : Nat :=
  l.foldl (fun a c => 10 * a + (c.toNat - 48)) 0

/-- Unsigned part of the Python built-in `float()` on a decimal literal:
digits with at most one decimal point and at least one digit. Any other
text raises `ValueError`, modelled as `none`. (`float()` also accepts
exponent, infinity/nan forms and surrounding whitespace; those never arise
from the price texts this extractor is pointed at and are not modelled.) -/
def pyFloatCore (l : List Char) : Option ℚ :=
  let ip := l.takeWhile (fun c => c ≠ '.')
  match l.dropWhile (fun c => c ≠ '.') with
  | [] =>
    if ip.isEmpty then none
    else if allDigits ip then some (digitsVal ip) else none
  | _ :: fp =>
    if ip.isEmpty && fp.isEmpty then none
    else if allDigits ip && allDigits fp then
      some ((digitsVal ip : ℚ) + (digitsVal fp : ℚ) / (10 ^ fp.length))
    else none

/-- The Python built-in `float()` on a decimal literal with optional sign. -/
def pyFloat : List Char → Option ℚ
  | '-' :: rest => (pyFloatCore rest).map (fun q => -q)
  | '+' :: rest => pyFloatCore rest
  | l => pyFloatCore l

/-- The closed rating enumeration
`rating_map` of the source, mapping the labels One to Five to 1 to 5. -/
def ratingMap (s : String) : Option Nat :=
  if s = "One" then some 1
  else if s = "Two" then some 2
  else if s = "Three" then some 3
  else if s = "Four" then some 4
  else if s = "Five" then some 5
  else none

/-- The body of the per-book `try` block: reads title, price, rating and
availability from one `product_pod` block and builds the row dict; `none`
is the `except Exception: continue` outcome (the block is skipped). The
order of the reads matches the source: title, then price, then rating;
an exception at any of those points skips the block before the later
fields are read. -/
def extractBook (b : BookBlock) : Option ProductRecord := do
  let tOpt ← b.h3aTitle
  let title := tOpt.getD "N/A"
  let pt ← b.priceText
  let price ← pyFloat (stripCurrency (pyStrip pt.toList))
  let cls ← b.starRating
  let rating : Nat :=
    if cls.length > 1 then (ratingMap (cls.getD 1 "")).getD 0 else 0
  let in_stock :=
    match b.availabilityText with
    | some t => containsSubstr (String.mk (pyStrip t.toList)) "In stock"
    | none => false
  pure { title := title, price := price, rating := (rating : ℚ),
         in_stock := in_stock, category := "Books" }

/-- The body of the per-quote `try` block: both `span.text` and
`small.author` must be present (a missing one raises and the item is
skipped); the row is built from the author only. -/
def extractQuote (q : QuoteBlock) : Option ProductRecord := do
  let _ ← q.quoteText
  let author ← q.author
  pure { title := "Quote by " ++ author, price := 0, rating := 5,
         in_stock := true, category := "Quotes" }

/-- A Python exception escaping the main `try` block of `scrape_website`. -/
inductive PyExn where
  | requestException : String → PyExn

/-- The main `try` block of `scrape_website`: one transport call
(`requests.get` + `raise_for_status`, which raises on a transport
failure), then URL routing by substring tests in source order, block
location, truncation to `max_items` blocks before extraction, and per-item
extraction with skip-on-failure. The `Bool` in the success value records
whether the unsupported-site branch issued its `st.warning`. -/
def scrapeTry (fetch : FetchResult) (url : String) (maxItems : Nat) :
    Except PyExn (List ProductRecord × Bool) :=
  match fetch with
  | .requestError msg => .error (.requestException msg)
  | .ok doc =>
    if containsSubstr url "books.toscrape.com" then
      .ok ((doc.bookBlocks.take maxItems).filterMap extractBook, false)
    else if containsSubstr url "quotes.toscrape.com" then
      .ok ((doc.quoteBlocks.take maxItems).filterMap extractQuote, false)
    else
      .ok ([], true)

/-- The observable outcome of one `scrape_website` invocation: the returned
DataFrame (as its list of rows), the number of transport calls performed,
and whether `st.warning` (unsupported branch) or `st.error` (exception
handler) fired. Only `df` is the return value of the function; the other fields
are instrumentation of its effects. -/
structure RunResult where
  df : List ProductRecord
  fetches : Nat
  warned : Bool
  errored : Bool
deriving DecidableEq

/-- `scrape_website(url, max_items)` under a given transport response:
the `try` body runs (performing its single transport call), and the two
`except` clauses turn any escaping exception into `st.error` plus an empty
DataFrame. Every path returns a DataFrame value. -/
def scrape_website (fetch : FetchResult) (url : String) (maxItems : Nat) :
    RunResult :=
  match scrapeTry fetch url maxItems with
  | .error _ => ⟨[], 1, false, true⟩
  | .ok (df, w) => ⟨df, 1, w, false⟩

/-- A stored memoization entry of the `st.cache_data` wrapper: the value the
wrapped function returned for the key, and the time it was stored. -/
structure CacheEntry where
  value : RunResult
  created_at : Nat
deriving DecidableEq

/-- The cache contents: an association from argument keys
`(url, max_items)` to entries. -/
abbrev CacheMap := List ((String × Nat) × CacheEntry)

def lookupEntry : CacheMap → String × Nat → Option CacheEntry
  | [], _ => none
  | (k, e) :: rest, key => if k = key then some e else lookupEntry rest key

/-- The TTL of the `@st.cache_data(ttl=3600)` decorator, in seconds. -/
def ttlSeconds : Nat := 3600

/-- Outcome of one call through the cache wrapper: the value handed to the
caller, the cache state afterwards, and whether the wrapped
`scrape_website` body actually ran on this call. -/
structure CachedCall where
  value : RunResult
  cache : CacheMap
  computed : Bool

/-- Model of the `@st.cache_data(ttl=3600)` decorator around
`scrape_website` (Streamlit library semantics): a call with arguments
`(url, maxItems)` at time `now` returns the stored value when an entry for
that exact key is younger than the TTL, without running the body;
otherwise the body runs and its return value is stored under the key.
The body returns normally on every path — its error outcomes are empty
DataFrames, not exceptions — so every outcome is stored, error outcomes
included. -/
def cachedScrape (cache : CacheMap) (now : Nat) (fetch : FetchResult)
    (url : String) (maxItems : Nat) : CachedCall :=
  match lookupEntry cache (url, maxItems) with
  | some e =>
    if now - e.created_at < ttlSeconds then ⟨e.value, cache, false⟩
    else
      let v := scrape_website fetch url maxItems
      ⟨v, ((url, maxItems), ⟨v, now⟩) :: cache, true⟩
  | none =>
    let v := scrape_website fetch url maxItems
    ⟨v, ((url, maxItems), ⟨v, now⟩) :: cache, true⟩

/-- Mean of a rational series (0 on the empty series, as a guard; every
use below is on a nonempty series). -/
def seriesMean (l : List ℚ) : ℚ := l.sum / l.length

/-- Sum of squared deviations from the mean, `Σ (x - x̄)²`. The sample
variance is this divided by `n - 1`; only zero-ness of the variance
matters below, and the two agree on that. -/
def sqDev (l : List ℚ) : ℚ :=
  (l.map (fun x => (x - seriesMean l) ^ 2)).sum

/-- Sum of co-deviations `Σ (x - x̄)(y - ȳ)`, the covariance numerator. -/
def coDev (xs ys : List ℚ) : ℚ :=
  (List.zipWith (fun x y => (x - seriesMean xs) * (y - seriesMean ys)) xs ys).sum

/-- Model of `pandas.Series.corr` (Pearson) as invoked by
the Price and Rating columns in the analytics tab. The float NaN that the
library produces when
either series is constant (zero variance) or has fewer than two points is
modelled as `none`. A defined coefficient `r = cov/(σx·σy)` is irrational
in general, so the `some` value carries `r` exactly as its signed square
`r·|r| = coDev·|coDev| / (sqDev·sqDev)` (the `n-1` factors cancel), which
is zero, positive or negative exactly when `r` is and determines `|r|`
monotonically; the claims below depend only on NaN-ness and zero-ness. -/
def seriesCorr (xs ys : List ℚ) : Option ℚ :=
  if xs.length < 2 ∨ sqDev xs = 0 ∨ sqDev ys = 0 then none
  else some (coDev xs ys * |coDev xs ys| / (sqDev xs * sqDev ys))

/-- The correlation the analytics tab computes: the pandas `corr` call on the
Price and Rating columns of the scraped DataFrame. -/
def priceRatingCorr (df : List ProductRecord) : Option ℚ :=
  seriesCorr (df.map ProductRecord.price) (df.map ProductRecord.rating)

/-! Concrete fixtures used by counterexamples and witnesses. -/

/-- A well-formed book block: title attribute present, parsable price,
recognized rating label, in-stock availability. -/
def bkValid1 : BookBlock :=
  ⟨some (some "A"), some "£10.00", some ["star-rating", "One"], some "In stock"⟩

/-- A second well-formed book block. -/
def bkValid2 : BookBlock :=
  ⟨some (some "B"), some "£20.00", some ["star-rating", "Two"], some "In stock"⟩

/-- A malformed book block: the price text does not parse as a number, so
the float conversion raises and the per-item handler skips the block. -/
def bkMalformed : BookBlock :=
  ⟨some (some "C"), some "N/A", some ["star-rating", "Three"], some "In stock"⟩

/-- An identifier matching the books layout pattern. -/
def booksURL : String := "https://books.toscrape.com/"

/-- An identifier matching no known layout pattern. -/
def otherURL : String := "https://example.com/"

/-! Helper lemmas shared between claims. -/

theorem length_filterMap_eq_countP {α β : Type} (f : α → Option β) (l : List α) :
    (l.filterMap f).length = l.countP (fun a => (f a).isSome) := by
  induction l with
  | nil => rfl
  | cons h t ih =>
    cases hf : f h <;> simp [List.filterMap_cons, hf, List.countP_cons, ih]

theorem sum_of_const (l : List ℚ) (c : ℚ) (h : ∀ x ∈ l, x = c) :
    l.sum = c * l.length := by
  induction l with
  | nil => simp
  | cons a t ih =>
    simp only [List.sum_cons, List.length_cons]
    rw [h a (by simp), ih (fun x hx => h x (by simp [hx]))]
    push_cast
    ring

theorem seriesMean_of_const (l : List ℚ) (c : ℚ) (hne : l ≠ [])
    (h : ∀ x ∈ l, x = c) : seriesMean l = c := by
  have hlen : (l.length : ℚ) ≠ 0 :=
    Nat.cast_ne_zero.mpr (List.length_pos.mpr hne).ne'
  rw [seriesMean, sum_of_const l c h, mul_div_assoc, div_self hlen, mul_one]

theorem sqDev_of_const (l : List ℚ) (c : ℚ) (h : ∀ x ∈ l, x = c) :
    sqDev l = 0 := by
  cases l with
  | nil => rfl
  | cons a t =>
    apply List.sum_eq_zero
    intro x hx
    obtain ⟨y, hy, rfl⟩ := List.mem_map.mp hx
    rw [seriesMean_of_const (a :: t) c (by simp) h, h y hy]
    ring

theorem ratingMap_getD_le_five (s : String) : (ratingMap s).getD 0 ≤ 5 := by
  unfold ratingMap
  split_ifs <;> simp

theorem scrape_books_eq (doc : DocumentData) (url : String) (n : Nat)
    (hb : containsSubstr url "books.toscrape.com" = true) :
    scrape_website (.ok doc) url n
      = ⟨(doc.bookBlocks.take n).filterMap extractBook, 1, false, false⟩ := by
  simp [scrape_website, scrapeTry, hb]

theorem scrape_quotes_eq (doc : DocumentData) (url : String) (n : Nat)
    (hb : containsSubstr url "books.toscrape.com" = false)
    (hq : containsSubstr url "quotes.toscrape.com" = true) :
    scrape_website (.ok doc) url n
      = ⟨(doc.quoteBlocks.take n).filterMap extractQuote, 1, false, false⟩ := by
  simp [scrape_website, scrapeTry, hb, hq]

theorem scrape_unsupported_eq (doc : DocumentData) (url : String) (n : Nat)
    (hb : containsSubstr url "books.toscrape.com" = false)
    (hq : containsSubstr url "quotes.toscrape.com" = false) :
    scrape_website (.ok doc) url n = ⟨[], 1, true, false⟩ := by
  simp [scrape_website, scrapeTry, hb, hq]

theorem scrape_error_eq (msg url : String) (n : Nat) :
    scrape_website (.requestError msg) url n = ⟨[], 1, false, true⟩ := rfl

/-- C1, counterexample. The claim asserts that an identifier matching no
known layout pattern yields the unsupported outcome with zero transport
fetches; in the code the single `requests.get` call precedes the routing
checks, so even for such an identifier exactly one transport invocation is
performed (here on a successfully fetched document, with the unsupported
outcome returned). -/
theorem unsupported_still_fetches_once :
    (scrape_website (.ok ⟨[], []⟩) otherURL 50).fetches = 1 ∧
    (scrape_website (.ok ⟨[], []⟩) otherURL 50).df = [] ∧
    (scrape_website (.ok ⟨[], []⟩) otherURL 50).warned = true := by
  decide

/-- C1, amended. For every identifier matching no known layout pattern and
a successful fetch, `scrape_website` returns the unsupported outcome — an
empty DataFrame with the warning issued and no error — but the transport
collaborator is invoked exactly once, because the fetch happens before
routing. -/
theorem unsupported_outcome_one_fetch (doc : DocumentData) (url : String)
    (n : Nat)
    (hb : containsSubstr url "books.toscrape.com" = false)
    (hq : containsSubstr url "quotes.toscrape.com" = false) :
    scrape_website (.ok doc) url n = ⟨[], 1, true, false⟩ := by
  simp [scrape_website, scrapeTry, hb, hq]

/-- Witness for the amended C1 at a concrete unsupported identifier. -/
theorem unsupported_outcome_one_fetch_witness :
    containsSubstr otherURL "books.toscrape.com" = false ∧
    containsSubstr otherURL "quotes.toscrape.com" = false ∧
    scrape_website (.ok ⟨[], []⟩) otherURL 7 = ⟨[], 1, true, false⟩ :=
  ⟨by decide, by decide,
    unsupported_outcome_one_fetch ⟨[], []⟩ otherURL 7 (by decide) (by decide)⟩

/-- C2, counterexample. The claim asserts that the skip count is part of
the returned result. A batch of two valid blocks plus one malformed block
(skip count 1) and a batch of just the two valid blocks (skip count 0)
produce identical return values, so the skip count is not recoverable from
the returned result. -/
theorem skip_count_not_returned :
    (extractBook bkValid1).isSome = true ∧
    (extractBook bkValid2).isSome = true ∧
    extractBook bkMalformed = none ∧
    scrape_website (.ok ⟨[bkValid1, bkValid2, bkMalformed], []⟩) booksURL 50 =
      scrape_website (.ok ⟨[bkValid1, bkValid2], []⟩) booksURL 50 := by
  refine ⟨rfl, rfl, rfl, rfl⟩

/-- C2, amended. A batch whose truncated block sequence contains exactly
one malformed block among K valid ones yields a Record Set of length K and
no batch-level failure — a single malformed block never fails the batch —
but the skip count is silently discarded, not part of the returned result. -/
theorem one_malformed_block_keeps_valid (doc : DocumentData) (url : String)
    (n K : Nat)
    (hb : containsSubstr url "books.toscrape.com" = true)
    (hvalid : (doc.bookBlocks.take n).countP
        (fun b => (extractBook b).isSome) = K)
    (_hbad : (doc.bookBlocks.take n).countP
        (fun b => (extractBook b).isNone) = 1) :
    (scrape_website (.ok doc) url n).df.length = K ∧
    (scrape_website (.ok doc) url n).errored = false := by
  refine ⟨?_, by simp [scrape_website, scrapeTry, hb]⟩
  simp [scrape_website, scrapeTry, hb, length_filterMap_eq_countP, hvalid]

/-- Witness for the amended C2: two valid blocks and one malformed block
give a Record Set of length 2 with no failure. -/
theorem one_malformed_block_keeps_valid_witness :
    containsSubstr booksURL "books.toscrape.com" = true ∧
    ([bkValid1, bkMalformed, bkValid2].take 50).countP
        (fun b => (extractBook b).isSome) = 2 ∧
    ([bkValid1, bkMalformed, bkValid2].take 50).countP
        (fun b => (extractBook b).isNone) = 1 ∧
    ((scrape_website (.ok ⟨[bkValid1, bkMalformed, bkValid2], []⟩) booksURL
        50).df.length = 2 ∧
      (scrape_website (.ok ⟨[bkValid1, bkMalformed, bkValid2], []⟩) booksURL
        50).errored = false) :=
  ⟨by decide, by decide, by decide,
    one_malformed_block_keeps_valid ⟨[bkValid1, bkMalformed, bkValid2], []⟩
      booksURL 50 2 (by decide) (by decide) (by decide)⟩

/-- C3, counterexample. The claim asserts that when a pipeline run ends in
an error no cache entry is stored and the next identical request re-invokes
the pipeline. After a run ending in a transport failure, the wrapper has
stored an entry for the key, and a second identical request 10 seconds
later is answered from the cache without re-invoking the pipeline. -/
theorem error_result_is_cached :
    (lookupEntry
        (cachedScrape [] 0 (.requestError "timeout") booksURL 50).cache
        (booksURL, 50)).isSome = true ∧
    (cachedScrape
        (cachedScrape [] 0 (.requestError "timeout") booksURL 50).cache
        10 (.requestError "timeout") booksURL 50).computed = false := by
  decide

/-- C3, amended. For every descriptor whose pipeline run ends in a
transport failure, the error outcome is converted to an empty DataFrame
and cached exactly like a success: an entry for the key is stored, and any
request with the same (identifier, max_items) key within the TTL window
returns the cached empty result without re-invoking the pipeline,
whatever the transport would answer then. -/
theorem error_outcome_cached_and_replayed (msg url : String) (n t₁ t₂ : Nat)
    (fetch₂ : FetchResult) (httl : t₂ - t₁ < ttlSeconds) :
    lookupEntry (cachedScrape [] t₁ (.requestError msg) url n).cache (url, n)
      = some ⟨⟨[], 1, false, true⟩, t₁⟩ ∧
    (cachedScrape (cachedScrape [] t₁ (.requestError msg) url n).cache t₂
        fetch₂ url n).computed = false ∧
    (cachedScrape (cachedScrape [] t₁ (.requestError msg) url n).cache t₂
        fetch₂ url n).value = ⟨[], 1, false, true⟩ := by
  refine ⟨by simp [cachedScrape, lookupEntry, scrape_website, scrapeTry], ?_, ?_⟩ <;>
    simp [cachedScrape, lookupEntry, scrape_website, scrapeTry, httl]

/-- Witness for the amended C3 at a concrete failing request. -/
theorem error_outcome_cached_and_replayed_witness :
    (100 - 0 < ttlSeconds) ∧
    (lookupEntry (cachedScrape [] 0 (.requestError "timeout") otherURL 50).cache
        (otherURL, 50) = some ⟨⟨[], 1, false, true⟩, 0⟩ ∧
      (cachedScrape (cachedScrape [] 0 (.requestError "timeout") otherURL
          50).cache 100 (.ok ⟨[], []⟩) otherURL 50).computed = false ∧
      (cachedScrape (cachedScrape [] 0 (.requestError "timeout") otherURL
          50).cache 100 (.ok ⟨[], []⟩) otherURL 50).value
        = ⟨[], 1, false, true⟩) :=
  ⟨by decide,
    error_outcome_cached_and_replayed "timeout" otherURL 50 0 100
      (.ok ⟨[], []⟩) (by decide)⟩

/-- C4, counterexample. The claim asserts that a successfully processed
document yielding zero records is distinguishable, from the returned value
alone, from the unsupported-source outcome. A books-layout document with
no content blocks and an unsupported identifier produce the same returned
DataFrame (empty in both cases), so the two outcomes are not
distinguishable from the returned value. -/
theorem empty_result_equals_unsupported_value :
    (scrape_website (.ok ⟨[], []⟩) booksURL 50).df = [] ∧
    (scrape_website (.ok ⟨[], []⟩) otherURL 50).df = [] ∧
    (scrape_website (.ok ⟨[], []⟩) booksURL 50).df
      = (scrape_website (.ok ⟨[], []⟩) otherURL 50).df := by
  decide

/-- C4, amended. A supported descriptor whose document is fetched and
parsed but yields zero extracted records produces a valid empty DataFrame
with neither warning nor error; this outcome is not distinguishable from
the unsupported-source outcome by the returned value alone — both return
an empty DataFrame — and differs only in the warning side effect, which
fires for the unsupported identifier and not for the empty result. -/
theorem empty_result_vs_unsupported (doc : DocumentData) (url u₂ : String)
    (n : Nat)
    (hb : containsSubstr url "books.toscrape.com" = true)
    (hempty : (doc.bookBlocks.take n).filterMap extractBook = [])
    (h₂b : containsSubstr u₂ "books.toscrape.com" = false)
    (h₂q : containsSubstr u₂ "quotes.toscrape.com" = false) :
    (scrape_website (.ok doc) url n).df = [] ∧
    (scrape_website (.ok doc) url n).warned = false ∧
    (scrape_website (.ok doc) url n).errored = false ∧
    (scrape_website (.ok doc) u₂ n).df = (scrape_website (.ok doc) url n).df ∧
    (scrape_website (.ok doc) u₂ n).warned = true := by
  refine ⟨?_, ?_, ?_, ?_, ?_⟩ <;>
    simp [scrape_website, scrapeTry, hb, h₂b, h₂q, hempty]

/-- Witness for the amended C4 at a concrete empty document. -/
theorem empty_result_vs_unsupported_witness :
    (containsSubstr booksURL "books.toscrape.com" = true ∧
      (([] : List BookBlock).take 50).filterMap extractBook = [] ∧
      containsSubstr otherURL "books.toscrape.com" = false ∧
      containsSubstr otherURL "quotes.toscrape.com" = false) ∧
    ((scrape_website (.ok ⟨[], []⟩) booksURL 50).df = [] ∧
      (scrape_website (.ok ⟨[], []⟩) booksURL 50).warned = false ∧
      (scrape_website (.ok ⟨[], []⟩) booksURL 50).errored = false ∧
      (scrape_website (.ok ⟨[], []⟩) otherURL 50).df
        = (scrape_website (.ok ⟨[], []⟩) booksURL 50).df ∧
      (scrape_website (.ok ⟨[], []⟩) otherURL 50).warned = true) :=
  ⟨⟨by decide, by decide, by decide, by decide⟩,
    empty_result_vs_unsupported ⟨[], []⟩ booksURL otherURL 50 (by decide)
      (by decide) (by decide) (by decide)⟩

/-- C5, counterexample. The claim asserts that the correlation computation
returns exactly 0 when one of the two numeric fields is constant. On a
two-record set with constant Price the pandas correlation is NaN
(modelled as `none`), which is not the value 0. -/
theorem constant_price_corr_is_nan :
    priceRatingCorr [⟨"a", 10, 1, true, "Books"⟩, ⟨"b", 10, 2, true, "Books"⟩]
      = none ∧ (none : Option ℚ) ≠ some 0 := by
  constructor
  · simp [priceRatingCorr, seriesCorr, sqDev, seriesMean]
  · simp

/-- C5, amended. For every non-empty record set in which Price or Rating
is constant across all records, the correlation computation returns NaN
(modelled as `none`), the undefined value of the zero-variance case — not
the number 0. -/
theorem constant_field_corr_nan (df : List ProductRecord) (c : ℚ)
    (_hne : df ≠ [])
    (h : (∀ r ∈ df, r.price = c) ∨ (∀ r ∈ df, r.rating = c)) :
    priceRatingCorr df = none := by
  rcases h with h | h
  · have h0 : sqDev (df.map ProductRecord.price) = 0 := by
      apply sqDev_of_const _ c
      intro x hx
      obtain ⟨r, hr, rfl⟩ := List.mem_map.mp hx
      exact h r hr
    simp [priceRatingCorr, seriesCorr, h0]
  · have h0 : sqDev (df.map ProductRecord.rating) = 0 := by
      apply sqDev_of_const _ c
      intro x hx
      obtain ⟨r, hr, rfl⟩ := List.mem_map.mp hx
      exact h r hr
    simp [priceRatingCorr, seriesCorr, h0]

/-- Witness for the amended C5 on a concrete constant-Price record set. -/
theorem constant_field_corr_nan_witness :
    (([⟨"a", 10, 1, true, "Books"⟩, ⟨"b", 10, 2, true, "Books"⟩]
        : List ProductRecord) ≠ [] ∧
      (∀ r ∈ ([⟨"a", 10, 1, true, "Books"⟩, ⟨"b", 10, 2, true, "Books"⟩]
        : List ProductRecord), r.price = 10)) ∧
    priceRatingCorr
        [⟨"a", 10, 1, true, "Books"⟩, ⟨"b", 10, 2, true, "Books"⟩] = none :=
  ⟨⟨by decide, by decide⟩,
    constant_field_corr_nan
      [⟨"a", 10, 1, true, "Books"⟩, ⟨"b", 10, 2, true, "Books"⟩] 10
      (by decide) (.inl (by decide))⟩

/-- C6. For every transport response, identifier and `max_items = N`, the
returned Record Set has length at most N; and, as in the concrete
scenario, with N = 1 on a books document of 5 valid blocks the result is
exactly the record extracted from the first block in document order —
truncation to the first N blocks happens before extraction. -/
theorem record_set_bounded_by_max_items :
    (∀ fetch url n, (scrape_website fetch url n).df.length ≤ n) ∧
    (∀ b₀ rest url, containsSubstr url "books.toscrape.com" = true →
      (b₀ :: rest).length = 5 →
      (∀ b ∈ b₀ :: rest, (extractBook b).isSome = true) →
      (scrape_website (.ok ⟨b₀ :: rest, []⟩) url 1).df
          = (extractBook b₀).toList ∧
        (scrape_website (.ok ⟨b₀ :: rest, []⟩) url 1).df.length = 1) := by
  constructor
  · intro fetch url n
    rcases fetch with doc | msg
    · cases hb : containsSubstr url "books.toscrape.com" with
      | true =>
        rw [scrape_books_eq doc url n hb]
        exact le_trans (List.length_filterMap_le _ _) (List.length_take_le _ _)
      | false =>
        cases hq : containsSubstr url "quotes.toscrape.com" with
        | true =>
          rw [scrape_quotes_eq doc url n hb hq]
          exact le_trans (List.length_filterMap_le _ _)
            (List.length_take_le _ _)
        | false =>
          rw [scrape_unsupported_eq doc url n hb hq]
          simp
    · rw [scrape_error_eq]
      simp
  · intro b₀ rest url hb _hlen hall
    obtain ⟨r, hr⟩ := Option.isSome_iff_exists.mp (hall b₀ (by simp))
    rw [scrape_books_eq _ _ _ hb]
    simp [List.filterMap_cons, hr]

/-- Witness for C6: the bound at N = 3, and the concrete 5-valid-block
scenario at N = 1. -/
theorem record_set_bounded_by_max_items_witness :
    ((scrape_website (.ok ⟨[bkValid1, bkValid2], []⟩) booksURL 3).df.length
        ≤ 3) ∧
    (containsSubstr booksURL "books.toscrape.com" = true ∧
      ([bkValid1, bkValid2, bkValid1, bkValid2, bkValid1]
        : List BookBlock).length = 5 ∧
      (∀ b ∈ ([bkValid1, bkValid2, bkValid1, bkValid2, bkValid1]
        : List BookBlock), (extractBook b).isSome = true) ∧
      ((scrape_website
            (.ok ⟨[bkValid1, bkValid2, bkValid1, bkValid2, bkValid1], []⟩)
            booksURL 1).df = (extractBook bkValid1).toList ∧
        (scrape_website
            (.ok ⟨[bkValid1, bkValid2, bkValid1, bkValid2, bkValid1], []⟩)
            booksURL 1).df.length = 1)) :=
  ⟨record_set_bounded_by_max_items.1 (.ok ⟨[bkValid1, bkValid2], []⟩)
      booksURL 3,
    by decide, by decide, by decide,
    record_set_bounded_by_max_items.2 bkValid1
      [bkValid2, bkValid1, bkValid2, bkValid1] booksURL (by decide)
      (by decide) (by decide)⟩

/-- C7, counterexample. The claim asserts every produced record has
numeric_value ≥ 0. A block whose price text parses to a negative number is
accepted in full, producing a record with a negative price. -/
theorem negative_price_record_accepted :
    extractBook ⟨some (some "T"), some "£-5.00",
        some ["star-rating", "Three"], some "In stock"⟩
      = some ⟨"T", -5, 3, true, "Books"⟩ ∧ ¬((0 : ℚ) ≤ -5) := by
  constructor
  · simp [extractBook, pyFloat, pyFloatCore, stripCurrency, pyStrip,
      allDigits, digitsVal, ratingMap, containsSubstr, occursIn, leadsWith]
  · norm_num

/-- C7, amended. Every record either extractor produces has all five
fields present (structurally guaranteed: a block that cannot populate a
required field is dropped whole, never partially recorded), its rating is
a natural number in [0,5], and its category matches the layout (with
quote records fixed at price 0 and rating 5) — but the numeric price field
is whatever number the price text parses to and need not be ≥ 0. -/
theorem record_field_invariant :
    (∀ b r, extractBook b = some r →
      (∃ k : ℕ, k ≤ 5 ∧ r.rating = (k : ℚ)) ∧ r.category = "Books") ∧
    (∀ q r, extractQuote q = some r →
      r.rating = 5 ∧ r.price = 0 ∧ r.category = "Quotes") := by
  constructor
  · intro b r h
    rcases b with ⟨t, p, s, a⟩
    cases t with
    | none => simp [extractBook] at h
    | some tOpt =>
      cases p with
      | none => simp [extractBook] at h
      | some pt =>
        cases hpf : pyFloat (stripCurrency (pyStrip pt.data)) with
        | none => simp [extractBook, hpf] at h
        | some price =>
          cases s with
          | none => simp [extractBook, hpf] at h
          | some cls =>
            simp [extractBook, hpf] at h
            subst h
            refine ⟨⟨if cls.length > 1 then (ratingMap (cls.getD 1 "")).getD 0
              else 0, ?_, ?_⟩, rfl⟩
            · split_ifs
              · exact ratingMap_getD_le_five _
              · norm_num
            · simp [List.getD]
  · intro q r h
    rcases q with ⟨qt, qa⟩
    cases qt with
    | none => simp [extractQuote] at h
    | some t₀ =>
      cases qa with
      | none => simp [extractQuote] at h
      | some a₀ =>
        simp [extractQuote] at h
        subst h
        exact ⟨rfl, rfl, rfl⟩

/-- Witness for the amended C7 on one concrete record per extractor. -/
theorem record_field_invariant_witness :
    (extractBook bkValid1 = some ⟨"A", 10, 1, true, "Books"⟩ ∧
      extractQuote ⟨some "Q", some "Author"⟩
        = some ⟨"Quote by Author", 0, 5, true, "Quotes"⟩) ∧
    ((∃ k : ℕ, k ≤ 5 ∧
        (⟨"A", 10, 1, true, "Books"⟩ : ProductRecord).rating = (k : ℚ)) ∧
      (⟨"A", 10, 1, true, "Books"⟩ : ProductRecord).category = "Books") ∧
    ((⟨"Quote by Author", 0, 5, true, "Quotes"⟩ : ProductRecord).rating = 5 ∧
      (⟨"Quote by Author", 0, 5, true, "Quotes"⟩ : ProductRecord).price = 0 ∧
      (⟨"Quote by Author", 0, 5, true, "Quotes"⟩ : ProductRecord).category
        = "Quotes") :=
  ⟨⟨by simp [bkValid1, extractBook, pyFloat, pyFloatCore, stripCurrency,
      pyStrip, allDigits, digitsVal, ratingMap, containsSubstr, occursIn,
      leadsWith], by simp [extractQuote]⟩,
    record_field_invariant.1 bkValid1 ⟨"A", 10, 1, true, "Books"⟩
      (by simp [bkValid1, extractBook, pyFloat, pyFloatCore, stripCurrency,
        pyStrip, allDigits, digitsVal, ratingMap, containsSubstr, occursIn,
        leadsWith]),
    record_field_invariant.2 ⟨some "Q", some "Author"⟩
      ⟨"Quote by Author", 0, 5, true, "Quotes"⟩ (by simp [extractQuote])⟩

/-- C8, counterexample. The claim asserts that an absent rating label
yields rating 0 without failing the record, and that only a missing
required title-like field fails a record. A block that is valid in every
other way but has no star-rating element at all is dropped entirely
(the attribute access on the missing element raises), while the same
block with the element present succeeds. -/
theorem absent_rating_element_fails_record :
    extractBook ⟨some (some "T"), some "£5.00", none, some "In stock"⟩
      = none ∧
    (extractBook ⟨some (some "T"), some "£5.00",
        some ["star-rating", "Three"], some "In stock"⟩).isSome = true :=
  ⟨rfl, rfl⟩

/-- C8, amended. When the star-rating element is present, its label is
mapped through the closed enumeration {One:1, Two:2, Three:3, Four:4,
Five:5}, and an unrecognized label — or a class list too short to carry a
label — yields rating 0 without failing the record. But an absent
star-rating element fails the whole record, and so do a missing or
unparsable price and a missing title element: not only the title field is
required. -/
theorem rating_label_leniency :
    (∀ b cls r, b.starRating = some cls → extractBook b = some r →
      r.rating = ((if cls.length > 1 then (ratingMap (cls.getD 1 "")).getD 0
        else 0 : ℕ) : ℚ)) ∧
    (ratingMap "One" = some 1 ∧ ratingMap "Two" = some 2 ∧
      ratingMap "Three" = some 3 ∧ ratingMap "Four" = some 4 ∧
      ratingMap "Five" = some 5 ∧
      ∀ s, s ∉ ["One", "Two", "Three", "Four", "Five"] → ratingMap s = none) ∧
    (∀ b, b.starRating = none → extractBook b = none) := by
  refine ⟨?_, ⟨rfl, rfl, rfl, rfl, rfl, ?_⟩, ?_⟩
  · intro b cls r hcls h
    rcases b with ⟨t, p, s, a⟩
    cases hcls
    cases t with
    | none => simp [extractBook] at h
    | some tOpt =>
      cases p with
      | none => simp [extractBook] at h
      | some pt =>
        cases hpf : pyFloat (stripCurrency (pyStrip pt.data)) with
        | none => simp [extractBook, hpf] at h
        | some price =>
          simp [extractBook, hpf] at h
          subst h
          simp [List.getD]
  · intro s hs
    unfold ratingMap
    split_ifs <;> simp_all
  · intro b hb
    rcases b with ⟨t, p, s, a⟩
    cases hb
    cases t with
    | none => rfl
    | some tOpt =>
      cases p with
      | none => rfl
      | some pt =>
        cases hpf : pyFloat (stripCurrency (pyStrip pt.data)) with
        | none => simp [extractBook, hpf]
        | some price => simp [extractBook, hpf]

/-- Witness for the amended C8: an unrecognized label gives rating 0 on a
record that still succeeds; the label Six is outside the enumeration; a
block without the star-rating element is dropped. -/
theorem rating_label_leniency_witness :
    ((⟨some (some "T"), some "£5.00", some ["star-rating", "Six"],
        some "In stock"⟩ : BookBlock).starRating
      = some ["star-rating", "Six"] ∧
      extractBook ⟨some (some "T"), some "£5.00",
          some ["star-rating", "Six"], some "In stock"⟩
        = some ⟨"T", 5, 0, true, "Books"⟩ ∧
      "Six" ∉ ["One", "Two", "Three", "Four", "Five"] ∧
      (⟨some (some "T"), some "£5.00", none, some "In stock"⟩
        : BookBlock).starRating = none) ∧
    (⟨"T", 5, 0, true, "Books"⟩ : ProductRecord).rating
      = ((if (["star-rating", "Six"] : List String).length > 1 then
          (ratingMap (["star-rating", "Six"].getD 1 "")).getD 0 else 0 : ℕ)
        : ℚ) ∧
    ratingMap "Six" = none ∧
    extractBook ⟨some (some "T"), some "£5.00", none, some "In stock"⟩
      = none :=
  ⟨⟨rfl, by simp [extractBook, pyFloat, pyFloatCore, stripCurrency, pyStrip,
      allDigits, digitsVal, ratingMap, containsSubstr, occursIn, leadsWith],
      by decide, rfl⟩,
    rating_label_leniency.1
      ⟨some (some "T"), some "£5.00", some ["star-rating", "Six"],
        some "In stock"⟩ ["star-rating", "Six"] ⟨"T", 5, 0, true, "Books"⟩
      rfl
      (by simp [extractBook, pyFloat, pyFloatCore, stripCurrency, pyStrip,
        allDigits, digitsVal, ratingMap, containsSubstr, occursIn,
        leadsWith]),
    rating_label_leniency.2.1.2.2.2.2.2 "Six" (by decide),
    rating_label_leniency.2.2
      ⟨some (some "T"), some "£5.00", none, some "In stock"⟩ rfl⟩

/-- C9. Two calls through the cache wrapper with identical
(identifier, max_items) keys within the TTL window run the wrapped
pipeline exactly once: the first call computes, the second is answered
with the cached value without computing, whatever the transport would
answer at the second call. -/
theorem cache_round_trip (fetch₁ fetch₂ : FetchResult) (url : String)
    (n t₁ t₂ : Nat) (httl : t₂ - t₁ < ttlSeconds) :
    (cachedScrape [] t₁ fetch₁ url n).computed = true ∧
    (cachedScrape (cachedScrape [] t₁ fetch₁ url n).cache t₂ fetch₂ url
        n).computed = false ∧
    (cachedScrape (cachedScrape [] t₁ fetch₁ url n).cache t₂ fetch₂ url
        n).value = (cachedScrape [] t₁ fetch₁ url n).value := by
  refine ⟨rfl, ?_, ?_⟩ <;> simp [cachedScrape, lookupEntry, httl]

/-- Witness for C9 at a concrete key and two in-window call times. -/
theorem cache_round_trip_witness :
    (100 - 0 < ttlSeconds) ∧
    ((cachedScrape [] 0 (.ok ⟨[], []⟩) booksURL 50).computed = true ∧
      (cachedScrape (cachedScrape [] 0 (.ok ⟨[], []⟩) booksURL 50).cache 100
          (.requestError "down") booksURL 50).computed = false ∧
      (cachedScrape (cachedScrape [] 0 (.ok ⟨[], []⟩) booksURL 50).cache 100
          (.requestError "down") booksURL 50).value
        = (cachedScrape [] 0 (.ok ⟨[], []⟩) booksURL 50).value) :=
  ⟨by decide,
    cache_round_trip (.ok ⟨[], []⟩) (.requestError "down") booksURL 50 0 100
      (by decide)⟩

/-- C10. The public interface is total: the body of `scrape_website`
either returns normally — and the returned DataFrame is handed through —
or raises, and every escaping exception is caught by the handlers and
converted to an empty DataFrame with the error message shown; no
exception propagates to the caller, and a DataFrame is returned on every
path. -/
theorem scrape_total_and_errors_empty (fetch : FetchResult) (url : String)
    (n : Nat) :
    (∀ e, scrapeTry fetch url n = .error e →
      scrape_website fetch url n = ⟨[], 1, false, true⟩) ∧
    (∀ df w, scrapeTry fetch url n = .ok (df, w) →
      (scrape_website fetch url n).df = df) := by
  constructor
  · intro e h
    simp [scrape_website, h]
  · intro df w h
    simp [scrape_website, h]

/-- Witness for C10 at a concrete transport failure. -/
theorem scrape_total_and_errors_empty_witness :
    (scrapeTry (.requestError "timeout") otherURL 50
      = .error (.requestException "timeout")) ∧
    scrape_website (.requestError "timeout") otherURL 50
      = ⟨[], 1, false, true⟩ :=
  ⟨rfl,
    (scrape_total_and_errors_empty (.requestError "timeout") otherURL 50).1
      (.requestException "timeout") rfl⟩

end Scraper
